import Mathlib

/-!
Shallow embedding of the two search-page components of invenio-app-ils:
`DocumentsSearch` (src/invenio_app_ils/ui/.../DocumentsSearch.js) and
`EItemsSearch` (src/unnamed/part_000).  Each React render method becomes a
pure Lean function producing a virtual-DOM tree (`Html`); component state
becomes an explicit state record; click handlers become first-class
`Effect` values (for handlers whose argument is supplied by a child
component, a function into `Effect`).
-/

namespace Ils

/-- Search-hit record shape as consumed by these pages: Documents rows read
`metadata.pid`, EItems rows read `ID`.  All other response fields are
opaque and never inspected by this fragment. -/
structure Metadata where
  pid : String
deriving DecidableEq

/-- One search hit supplied by the search toolkit to a results render prop. -/
structure Hit where
  metadata : Metadata
  ID : String
deriving DecidableEq

/-- Error object supplied by the search client; opaque to these pages. -/
structure SearchError where
  message : String
deriving DecidableEq

/-- Client-side routes.  The route-path builders (`FrontSiteRoutes.…For`,
`BackOfficeRoutes.…For`) are pure string builders owned outside this
fragment; we model each as an injective constructor. -/
inductive Route where
  | documentDetails (pid : String)
  | documentRequestForm
  | eitemDetails (id : String)
deriving DecidableEq

namespace FrontSiteRoutes

/-- Modelled from the spec: route-path builders are pure string builders
owned elsewhere (routes/urls is not under src/). -/
def documentDetailsFor (pid : String) : Route := Route.documentDetails pid

/-- Modelled from the spec: the book-request-form route constant. -/
def documentRequestForm : Route := Route.documentRequestForm

end FrontSiteRoutes

namespace BackOfficeRoutes

/-- Modelled from the spec: route-path builder for an eitem details page. -/
def eitemDetailsFor (id : String) : Route := Route.eitemDetails id

end BackOfficeRoutes

/-- The component state of `DocumentsSearch`:
`state = { activeIndex: 0, isLayoutGrid: true }` in the source.  These are
the only two fields the component ever reads or writes. -/
structure DocumentsSearchState where
  activeIndex : Int
  isLayoutGrid : Bool
deriving DecidableEq

/-- Observable effect of firing a handler wired into the rendered tree. -/
inductive Effect where
  | setDocumentsState (next : DocumentsSearchState)
  | navigate (r : Route)
  | resetQuery
  | openRecordEditor (url : String)
deriving DecidableEq

/-- Modelled from the spec: `goTo(path)` performs client-side navigation
(history module is not under src/). -/
def goTo (r : Route) : Effect := Effect.navigate r

/-- Modelled from the spec: `openRecordEditor(url)` opens the record editor
for a creation URL (routes/urls is not under src/). -/
def openRecordEditor (url : String) : Effect := Effect.openRecordEditor url

/-- Modelled from the spec: a domain API descriptor (`documentApi`,
`eitemApi`) exposes a base search URL and a record URL; treated as an
opaque configuration constant, so kept abstract as a parameter. -/
structure ApiDescriptor where
  searchBaseURL : String
  url : String
deriving DecidableEq

/-- The search API object `new InvenioSearchApi({url, withCredentials})`
built by `DocumentsSearch`. -/
structure InvenioSearchApi where
  url : String
  withCredentials : Bool
deriving DecidableEq

/-- Modelled from the spec: the shared base API configuration spread into
EItemsSearch's search config (`common/api/base` is not under src/); the
spec documents it as the credentials mode of the endpoint. -/
structure ApiConfig where
  withCredentials : Bool
deriving DecidableEq

/-- What a page hands to the `ReactSearchKit` provider: `DocumentsSearch`
passes a `searchApi` object, `EItemsSearch` passes a `searchConfig` object
spreading `apiConfig` and overriding `url`. -/
inductive SearchProvider where
  | api (searchApi : InvenioSearchApi)
  | config (base : ApiConfig) (url : String)
deriving DecidableEq

/-- One entry of a page's `searchConfig.AGGREGATIONS` list. -/
structure AggregationConfig where
  title : String
  field : String
deriving DecidableEq

/-- Modelled from the spec: `getSearchConfig(name)` supplies per-page
configuration constants; only the aggregation list is inspected here, and
the whole object is forwarded to `ResultsSort`. -/
structure SearchConfig where
  AGGREGATIONS : List AggregationConfig
deriving DecidableEq

/-- Opaque aggregation buckets handed by the toolkit to an `Aggregator`
render prop (`resultsAggregations`); only compared against `undefined`. -/
structure ResultsAggregations where
  buckets : List String
deriving DecidableEq

/-- Opaque pre-rendered aggregation widget (`aggregations` argument of the
`Aggregator` render prop). -/
structure AggregationsView where
  viewId : Nat
deriving DecidableEq

/-- Virtual-DOM tree produced by the render methods.  Generic markup
containers become `elem tag children`; components whose props the claims
inspect get dedicated constructors carrying exactly those props. -/
inductive Html where
  | null
  | text (s : String)
  | elem (tag : String) (children : List Html)
  | icon (name : String)
  | button (disabled : Bool) (onClick : Effect) (children : List Html)
  | clearButton (clickHandler : Effect)
  | newButton (label : String) (clickHandler : Effect)
  | ilsError (error : SearchError)
  | documentItem (key : String) (metadata : Metadata)
      (rowActionClickHandler : String → Effect)
  | bookCard (key : String) (data : Hit)
  | cardGroup (itemsPerRow : Nat) (children : List Html)
  | eitemsResultsList (results : List Hit)
      (viewDetailsClickHandler : Hit → Effect)
  | accordionTitle (content : String) (index : Int) (active : Bool)
      (onClick : Effect)
  | accordionContent (active : Bool) (content : AggregationsView)
  | aggregatorC (title : String) (field : String)
      (customPropsIndex : Option Int)
      (renderElement :
        Option (String → Option ResultsAggregations → AggregationsView → Int → Html))
  | searchBarWidget (currentQueryString : String)
      (onInputChange executeSearch : Effect) (placeholder : String)
  | searchBarC (renderElement : String → Effect → Effect → Html)
  | resultsGridC (renderElement : List Hit → Html)
  | resultsListC (renderElement : List Hit → Html)
  | emptyResultsC (renderElement : String → Effect → Html)
  | errorC (renderElement : SearchError → Html)
  | paginationC
  | countC (renderElement : Nat → Html)
  | resultsSortC (config : SearchConfig)
  | resultsLoader (children : List Html)
  | reactSearchKit (provider : SearchProvider) (children : List Html)
  | link (dest : Route) (stateQueryString : Option String) (children : List Html)

instance : Inhabited Html := ⟨Html.null⟩

instance : Inhabited Effect := ⟨Effect.resetQuery⟩

mutual

/-- Preorder collection over a tree: apply `f` at every node and
concatenate the results. -/
def Html.collect {α : Type} (f : Html → List α) : Html → List α
  | .elem t cs => f (.elem t cs) ++ Html.collectList f cs
  | .button d e cs => f (.button d e cs) ++ Html.collectList f cs
  | .cardGroup n cs => f (.cardGroup n cs) ++ Html.collectList f cs
  | .resultsLoader cs => f (.resultsLoader cs) ++ Html.collectList f cs
  | .reactSearchKit p cs => f (.reactSearchKit p cs) ++ Html.collectList f cs
  | .link r q cs => f (.link r q cs) ++ Html.collectList f cs
  | h => f h

/-- Collection over a list of sibling trees. -/
def Html.collectList {α : Type} (f : Html → List α) : List Html → List α
  | [] => []
  | h :: t => Html.collect f h ++ Html.collectList f t

end

namespace DocumentsSearch

/-- Instance field `searchApi = new InvenioSearchApi({ url:
documentApi.searchBaseURL, withCredentials: true })`. -/
def searchApi (documentApi : ApiDescriptor) : InvenioSearchApi :=
  { url := documentApi.searchBaseURL, withCredentials := true }

/-- Instance field `state = { activeIndex: 0, isLayoutGrid: true }`. -/
def initialState : DocumentsSearchState :=
  { activeIndex := 0, isLayoutGrid := true }

/-- `toggleAccordion`: `newIndex = activeIndex === index ? -1 : index`,
then `setState({ activeIndex: newIndex })` (a partial-state merge, so
`isLayoutGrid` is kept). -/
def toggleAccordion (index : Int) (s : DocumentsSearchState) :
    DocumentsSearchState :=
  let newIndex : Int := if s.activeIndex = index then -1 else index
  { s with activeIndex := newIndex }

/-- `renderAccordionAggregations(title, resultsAggregations, aggregations,
customProps)`; the state argument models the `this.state.activeIndex` read,
and `customProps.index` is passed as a plain `Int`. -/
def renderAccordionAggregations (s : DocumentsSearchState) (title : String)
    (resultsAggregations : Option ResultsAggregations)
    (aggregations : AggregationsView) (customPropsIndex : Int) : Html :=
  match resultsAggregations with
  | some _ =>
      .elem "Accordion" [
        .elem "Menu.Item" [
          .accordionTitle title customPropsIndex
            (s.activeIndex == customPropsIndex)
            (Effect.setDocumentsState (toggleAccordion customPropsIndex s)),
          .accordionContent (s.activeIndex == customPropsIndex) aggregations]]
  | none => .null

/-- `renderSearchBar(_, queryString, onInputChange, executeSearch)`. -/
def renderSearchBar (queryString : String)
    (onInputChange executeSearch : Effect) : Html :=
  .searchBarWidget queryString onInputChange executeSearch
    "Search for records..."

/-- The closure `toggleLayout = () => this.setState({ isLayoutGrid:
!this.state.isLayoutGrid })` defined inside `renderResultsLayoutOptions`
(a partial-state merge, so `activeIndex` is kept). -/
def toggleLayout (s : DocumentsSearchState) : DocumentsSearchState :=
  { s with isLayoutGrid := !s.isLayoutGrid }

/-- `renderResultsLayoutOptions`: two buttons in a group; the first is
disabled when the grid layout is on, the second when it is off, both
clicking to `toggleLayout`. -/
def renderResultsLayoutOptions (s : DocumentsSearchState) : Html :=
  .elem "Button.Group" [
    .button s.isLayoutGrid (Effect.setDocumentsState (toggleLayout s))
      [.icon "grid layout"],
    .button (!s.isLayoutGrid) (Effect.setDocumentsState (toggleLayout s))
      [.icon "list layout"]]

/-- `renderResultsGrid`: one `BookCard` per hit, keyed by
`book.metadata.pid`, in a `Card.Group` with four items per row. -/
def renderResultsGrid (results : List Hit) : Html :=
  .cardGroup 4 (results.map fun book => .bookCard book.metadata.pid book)

/-- `renderResultsList`: `results.length ? <div>…</div> : null`; one
`DocumentItem` per hit keyed by `book.metadata.pid`, whose row action
navigates to the document details route of the clicked pid. -/
def renderResultsList (results : List Hit) : Html :=
  if results.length != 0 then
    .elem "div" (results.map fun book =>
      .documentItem book.metadata.pid book.metadata
        (fun pid => goTo (FrontSiteRoutes.documentDetailsFor pid)))
  else
    .null

/-- `renderEmptyResults(queryString, resetQuery)`: a placeholder segment
showing the current query string.  The `resetQuery` argument is accepted
but never used by this page. -/
def renderEmptyResults (queryString : String) (resetQuery : Effect) : Html :=
  .elem "Segment" [
    .elem "Header" [.icon "search", .text "No records found!"],
    .elem "div" [.text "Current search \"", .text queryString, .text "\""]]

/-- `renderError`: forward the error object to `IlsError`. -/
def renderError (error : SearchError) : Html :=
  .ilsError error

/-- `renderCount`: `<div>{totalResults} results</div>`. -/
def renderCount (totalResults : Nat) : Html :=
  .elem "div" [.text (toString totalResults), .text " results"]

/-- `renderAggregations`: accordion panels (mobile) indexed by position in
`searchConfig.AGGREGATIONS` with `renderAccordionAggregations` as render
prop, and plain card panels (computer). -/
def renderAggregations (searchConfig : SearchConfig)
    (s : DocumentsSearchState) : Html :=
  let accordionPanels := searchConfig.AGGREGATIONS.enum.map fun p =>
    Html.elem "div" [.aggregatorC p.2.title p.2.field (some (Int.ofNat p.1))
      (some (renderAccordionAggregations s))]
  let cardPanels := searchConfig.AGGREGATIONS.map fun agg =>
    Html.elem "div" [.aggregatorC agg.title agg.field none none]
  .elem "div" [
    .elem "Responsive.onlyMobile" accordionPanels,
    .elem "Responsive.onlyComputer" cardPanels]

/-- `renderHeader`: layout toggle, count, pagination and sort controls. -/
def renderHeader (searchConfig : SearchConfig)
    (s : DocumentsSearchState) : Html :=
  .elem "Grid" [
    .elem "Grid.Column" [renderResultsLayoutOptions s],
    .elem "Grid.Column" [.countC renderCount],
    .elem "Grid.Column" [.paginationC],
    .elem "Grid.Column" [.resultsSortC searchConfig]]

/-- `renderFooter`: a second pagination row. -/
def renderFooter : Html :=
  .elem "Grid" [
    .elem "Grid.Column" [],
    .elem "Grid.Column" [.paginationC],
    .elem "Grid.Column" []]

/-- `render()`: the full page.  `locationSearch` models
`this.props.location.search`, forwarded as router state on the book
request form link. -/
def render (documentApi : ApiDescriptor) (searchConfig : SearchConfig)
    (s : DocumentsSearchState) (locationSearch : String) : Html :=
  let requestForm :=
    Html.link FrontSiteRoutes.documentRequestForm (some locationSearch)
      [.text "book request form"]
  .reactSearchKit (.api (searchApi documentApi)) [
    .elem "Container" [.searchBarC renderSearchBar],
    .elem "Grid" [
      .elem "Grid.Column" [renderAggregations searchConfig s],
      .elem "Grid.Column" [
        .resultsLoader [
          .emptyResultsC renderEmptyResults,
          .errorC renderError,
          renderHeader searchConfig s,
          if s.isLayoutGrid then .resultsGridC renderResultsGrid
          else .resultsListC renderResultsList,
          renderFooter,
          .elem "Message" [
            .icon "info circle",
            .elem "Message.Content" [
              .elem "Message.Header"
                [.text "Couldn\x27t find the book you were looking for?"],
              .text "Please fill in the ",
              requestForm,
              .text " to request a new book from the library."]]]]]]

end DocumentsSearch

namespace EItemsSearch

/-- `renderSearchBar(_, queryString, onInputChange, executeSearch)`. -/
def renderSearchBar (queryString : String)
    (onInputChange executeSearch : Effect) : Html :=
  .searchBarWidget queryString onInputChange executeSearch
    "Search for eitems"

/-- `renderResultsList`: forward the rows to `EItemsResultsList`; the
view-details action navigates to the eitem details route of `row.ID`. -/
def renderResultsList (results : List Hit) : Html :=
  .elem "div" [
    .eitemsResultsList results
      (fun row => goTo (BackOfficeRoutes.eitemDetailsFor row.ID))]

/-- `renderEmptyResults(queryString, resetQuery)`: placeholder segment with
the current query string, a `ClearButton` firing `resetQuery`, and a
`NewButton` opening the record editor on `eitemApi.url`. -/
def renderEmptyResults (eitemApi : ApiDescriptor) (queryString : String)
    (resetQuery : Effect) : Html :=
  .elem "Segment" [
    .elem "Header" [.icon "search", .text "No eitems found!"],
    .elem "div" [.text "Current search \"", .text queryString, .text "\""],
    .elem "Segment.Inline" [
      .clearButton resetQuery,
      .newButton "New eitem" (openRecordEditor eitemApi.url)]]

/-- `renderError`: forward the error object to `IlsError`. -/
def renderError (error : SearchError) : Html :=
  .ilsError error

/-- `renderCount`: `<div>{totalResults} results</div>`. -/
def renderCount (totalResults : Nat) : Html :=
  .elem "div" [.text (toString totalResults), .text " results"]

/-- `renderHeader`: count, pagination and sort controls (no layout
toggle on this page). -/
def renderHeader (searchConfig : SearchConfig) : Html :=
  .elem "Grid" [
    .elem "Grid.Column" [.countC renderCount],
    .elem "Grid.Column" [.paginationC],
    .elem "Grid.Column" [.resultsSortC searchConfig]]

/-- `renderFooter`: a second pagination row. -/
def renderFooter : Html :=
  .elem "Grid" [
    .elem "Grid.Column" [],
    .elem "Grid.Column" [.paginationC],
    .elem "Grid.Column" []]

/-- `render()`: the full page; the provider receives
`{...apiConfig, url: eitemApi.url}`. -/
def render (apiConfig : ApiConfig) (eitemApi : ApiDescriptor)
    (searchConfig : SearchConfig) : Html :=
  .reactSearchKit (.config apiConfig eitemApi.url) [
    .elem "Container" [.searchBarC renderSearchBar],
    .elem "Grid" [
      .elem "Grid.Column" [
        .resultsLoader [
          .emptyResultsC (renderEmptyResults eitemApi),
          .errorC renderError,
          renderHeader searchConfig,
          .resultsListC renderResultsList,
          renderFooter]]]]

end EItemsSearch

/-! Extraction functions over rendered trees: each collects one kind of
prop, in document order, so that claims can be stated as equations about
what a render method actually emitted. -/

/-- All text nodes of a tree, in order. -/
def textNodes (h : Html) : List String :=
  Html.collect (fun x => match x with | .text s => [s] | _ => []) h

/-- The click effect wired into every clickable control (buttons, clear
button, new button, accordion titles), in order. -/
def clickEffects (h : Html) : List Effect :=
  Html.collect (fun x => match x with
    | .button _ e _ => [e]
    | .clearButton e => [e]
    | .newButton _ e => [e]
    | .accordionTitle _ _ _ e => [e]
    | _ => []) h

/-- The click effects of plain buttons only. -/
def buttonEffects (h : Html) : List Effect :=
  Html.collect (fun x => match x with | .button _ e _ => [e] | _ => []) h

/-- The `disabled` flag of every plain button, in order. -/
def buttonDisabledFlags (h : Html) : List Bool :=
  Html.collect (fun x => match x with | .button d _ _ => [d] | _ => []) h

/-- The render prop of every `ResultsGrid` component in the tree. -/
def gridRenderers (h : Html) : List (List Hit → Html) :=
  Html.collect (fun x => match x with | .resultsGridC r => [r] | _ => []) h

/-- The render prop of every `ResultsList` component in the tree. -/
def listRenderers (h : Html) : List (List Hit → Html) :=
  Html.collect (fun x => match x with | .resultsListC r => [r] | _ => []) h

/-- The render prop of every `Error` component in the tree. -/
def errorRenderers (h : Html) : List (SearchError → Html) :=
  Html.collect (fun x => match x with | .errorC r => [r] | _ => []) h

/-- The render prop of every `EmptyResults` component in the tree. -/
def emptyRenderers (h : Html) : List (String → Effect → Html) :=
  Html.collect (fun x => match x with | .emptyResultsC r => [r] | _ => []) h

/-- The render prop of every `SearchBar` component in the tree. -/
def searchBarRenderers (h : Html) : List (String → Effect → Effect → Html) :=
  Html.collect (fun x => match x with | .searchBarC r => [r] | _ => []) h

/-- The render prop of every `Count` component in the tree. -/
def countRenderers (h : Html) : List (Nat → Html) :=
  Html.collect (fun x => match x with | .countC r => [r] | _ => []) h

/-- The search configuration of every `ResultsSort` in the tree. -/
def sortConfigs (h : Html) : List SearchConfig :=
  Html.collect (fun x => match x with | .resultsSortC c => [c] | _ => []) h

/-- The error objects forwarded to `IlsError` components. -/
def ilsErrorObjects (h : Html) : List SearchError :=
  Html.collect (fun x => match x with | .ilsError e => [e] | _ => []) h

/-- The `key` of every `DocumentItem` in the tree, in order. -/
def docItemKeys (h : Html) : List String :=
  Html.collect (fun x => match x with | .documentItem k _ _ => [k] | _ => []) h

/-- The row-action handler of every `DocumentItem` in the tree. -/
def docRowHandlers (h : Html) : List (String → Effect) :=
  Html.collect
    (fun x => match x with | .documentItem _ _ f => [f] | _ => []) h

/-- The `key` of every `BookCard` in the tree, in order. -/
def bookCardKeys (h : Html) : List String :=
  Html.collect (fun x => match x with | .bookCard k _ => [k] | _ => []) h

/-- The view-details handler of every `EItemsResultsList` in the tree. -/
def eitemHandlers (h : Html) : List (Hit → Effect) :=
  Html.collect
    (fun x => match x with | .eitemsResultsList _ f => [f] | _ => []) h

/-- The `results` prop of every `EItemsResultsList` in the tree. -/
def eitemResultsProps (h : Html) : List (List Hit) :=
  Html.collect
    (fun x => match x with | .eitemsResultsList rs _ => [rs] | _ => []) h

/-- The `active` flag of every accordion title and content, in order. -/
def accordionActiveFlags (h : Html) : List Bool :=
  Html.collect (fun x => match x with
    | .accordionTitle _ _ a _ => [a]
    | .accordionContent a _ => [a]
    | _ => []) h

/-- The aggregated field of every `Aggregator` widget in the tree. -/
def aggregatorFields (h : Html) : List String :=
  Html.collect
    (fun x => match x with | .aggregatorC _ f _ _ => [f] | _ => []) h

/-- Every state value written by a `setState`-style click effect reachable
in the tree. -/
def setStateWrites (h : Html) : List DocumentsSearchState :=
  (clickEffects h).filterMap fun e =>
    match e with | .setDocumentsState s => some s | _ => none

/-- The provider configuration at the root `ReactSearchKit`, if any. -/
def providerOf (h : Html) : Option SearchProvider :=
  match h with | .reactSearchKit p _ => some p | _ => none

/-- One marker per `Pagination` component in the tree. -/
def paginationNodes (h : Html) : List Unit :=
  Html.collect (fun x => match x with | .paginationC => [()] | _ => []) h

/-- Does the tree contain a `ResultsGrid` component? -/
def hasGridC (h : Html) : Bool :=
  !(gridRenderers h).isEmpty

/-- Does the tree contain a `ResultsList` component? -/
def hasListC (h : Html) : Bool :=
  !(listRenderers h).isEmpty

/-- Does the tree contain an `Aggregator` widget? -/
def hasAggregator (h : Html) : Bool :=
  !(aggregatorFields h).isEmpty

/-- Does the tree contain a `Pagination` component? -/
def hasPagination (h : Html) : Bool :=
  !(paginationNodes h).isEmpty

/-- Is some clickable control in the tree wired to fire exactly `e`? -/
def wiresEffect (h : Html) (e : Effect) : Bool :=
  (clickEffects h).contains e

/-! Constructor-wise rewriting rules for `Html.collect`: these let `simp`
evaluate a collection over a tree one node at a time without unfolding the
recursor-compiled definition at non-constructor subterms. -/

@[simp] theorem Html.collect_null {α : Type} (f : Html → List α) :
    Html.collect f .null = f .null := by
  simp [Html.collect.eq_def]

@[simp] theorem Html.collect_text {α : Type} (f : Html → List α)
    (s : String) : Html.collect f (.text s) = f (.text s) := by
  simp [Html.collect.eq_def]

@[simp] theorem Html.collect_elem {α : Type} (f : Html → List α)
    (t : String) (cs : List Html) :
    Html.collect f (.elem t cs) = f (.elem t cs) ++ Html.collectList f cs := by
  simp [Html.collect.eq_def]

@[simp] theorem Html.collect_icon {α : Type} (f : Html → List α)
    (n : String) : Html.collect f (.icon n) = f (.icon n) := by
  simp [Html.collect.eq_def]

@[simp] theorem Html.collect_button {α : Type} (f : Html → List α)
    (d : Bool) (e : Effect) (cs : List Html) :
    Html.collect f (.button d e cs)
      = f (.button d e cs) ++ Html.collectList f cs := by
  simp [Html.collect.eq_def]

@[simp] theorem Html.collect_clearButton {α : Type} (f : Html → List α)
    (e : Effect) : Html.collect f (.clearButton e) = f (.clearButton e) := by
  simp [Html.collect.eq_def]

@[simp] theorem Html.collect_newButton {α : Type} (f : Html → List α)
    (l : String) (e : Effect) :
    Html.collect f (.newButton l e) = f (.newButton l e) := by
  simp [Html.collect.eq_def]

@[simp] theorem Html.collect_ilsError {α : Type} (f : Html → List α)
    (e : SearchError) : Html.collect f (.ilsError e) = f (.ilsError e) := by
  simp [Html.collect.eq_def]

@[simp] theorem Html.collect_documentItem {α : Type} (f : Html → List α)
    (k : String) (m : Metadata) (g : String → Effect) :
    Html.collect f (.documentItem k m g) = f (.documentItem k m g) := by
  simp [Html.collect.eq_def]

@[simp] theorem Html.collect_bookCard {α : Type} (f : Html → List α)
    (k : String) (b : Hit) :
    Html.collect f (.bookCard k b) = f (.bookCard k b) := by
  simp [Html.collect.eq_def]

@[simp] theorem Html.collect_cardGroup {α : Type} (f : Html → List α)
    (n : Nat) (cs : List Html) :
    Html.collect f (.cardGroup n cs)
      = f (.cardGroup n cs) ++ Html.collectList f cs := by
  simp [Html.collect.eq_def]

@[simp] theorem Html.collect_eitemsResultsList {α : Type}
    (f : Html → List α) (rs : List Hit) (g : Hit → Effect) :
    Html.collect f (.eitemsResultsList rs g)
      = f (.eitemsResultsList rs g) := by
  simp [Html.collect.eq_def]

@[simp] theorem Html.collect_accordionTitle {α : Type} (f : Html → List α)
    (c : String) (i : Int) (a : Bool) (e : Effect) :
    Html.collect f (.accordionTitle c i a e)
      = f (.accordionTitle c i a e) := by
  simp [Html.collect.eq_def]

@[simp] theorem Html.collect_accordionContent {α : Type}
    (f : Html → List α) (a : Bool) (c : AggregationsView) :
    Html.collect f (.accordionContent a c) = f (.accordionContent a c) := by
  simp [Html.collect.eq_def]

@[simp] theorem Html.collect_aggregatorC {α : Type} (f : Html → List α)
    (t fl : String) (ci : Option Int)
    (re : Option
      (String → Option ResultsAggregations → AggregationsView → Int → Html)) :
    Html.collect f (.aggregatorC t fl ci re)
      = f (.aggregatorC t fl ci re) := by
  simp [Html.collect.eq_def]

@[simp] theorem Html.collect_searchBarWidget {α : Type} (f : Html → List α)
    (q : String) (o x : Effect) (p : String) :
    Html.collect f (.searchBarWidget q o x p)
      = f (.searchBarWidget q o x p) := by
  simp [Html.collect.eq_def]

@[simp] theorem Html.collect_searchBarC {α : Type} (f : Html → List α)
    (re : String → Effect → Effect → Html) :
    Html.collect f (.searchBarC re) = f (.searchBarC re) := by
  simp [Html.collect.eq_def]

@[simp] theorem Html.collect_resultsGridC {α : Type} (f : Html → List α)
    (re : List Hit → Html) :
    Html.collect f (.resultsGridC re) = f (.resultsGridC re) := by
  simp [Html.collect.eq_def]

@[simp] theorem Html.collect_resultsListC {α : Type} (f : Html → List α)
    (re : List Hit → Html) :
    Html.collect f (.resultsListC re) = f (.resultsListC re) := by
  simp [Html.collect.eq_def]

@[simp] theorem Html.collect_emptyResultsC {α : Type} (f : Html → List α)
    (re : String → Effect → Html) :
    Html.collect f (.emptyResultsC re) = f (.emptyResultsC re) := by
  simp [Html.collect.eq_def]

@[simp] theorem Html.collect_errorC {α : Type} (f : Html → List α)
    (re : SearchError → Html) :
    Html.collect f (.errorC re) = f (.errorC re) := by
  simp [Html.collect.eq_def]

@[simp] theorem Html.collect_paginationC {α : Type} (f : Html → List α) :
    Html.collect f .paginationC = f .paginationC := by
  simp [Html.collect.eq_def]

@[simp] theorem Html.collect_countC {α : Type} (f : Html → List α)
    (re : Nat → Html) : Html.collect f (.countC re) = f (.countC re) := by
  simp [Html.collect.eq_def]

@[simp] theorem Html.collect_resultsSortC {α : Type} (f : Html → List α)
    (c : SearchConfig) :
    Html.collect f (.resultsSortC c) = f (.resultsSortC c) := by
  simp [Html.collect.eq_def]

@[simp] theorem Html.collect_resultsLoader {α : Type} (f : Html → List α)
    (cs : List Html) :
    Html.collect f (.resultsLoader cs)
      = f (.resultsLoader cs) ++ Html.collectList f cs := by
  simp [Html.collect.eq_def]

@[simp] theorem Html.collect_reactSearchKit {α : Type} (f : Html → List α)
    (p : SearchProvider) (cs : List Html) :
    Html.collect f (.reactSearchKit p cs)
      = f (.reactSearchKit p cs) ++ Html.collectList f cs := by
  simp [Html.collect.eq_def]

@[simp] theorem Html.collect_link {α : Type} (f : Html → List α)
    (r : Route) (q : Option String) (cs : List Html) :
    Html.collect f (.link r q cs)
      = f (.link r q cs) ++ Html.collectList f cs := by
  simp [Html.collect.eq_def]

@[simp] theorem Html.collectList_nil {α : Type} (f : Html → List α) :
    Html.collectList f [] = [] := by
  rw [Html.collectList.eq_def]

@[simp] theorem Html.collectList_cons {α : Type} (f : Html → List α)
    (h : Html) (t : List Html) :
    Html.collectList f (h :: t)
      = Html.collect f h ++ Html.collectList f t := by
  rw [Html.collectList.eq_def]

/-! Bridge lemmas for trees whose child lists arise from mapping over an
abstract configuration or results list. -/

/-- Collection over a mapped sibling list whose images contribute
nothing. -/
theorem collectList_map_nil {α β : Type} (f : Html → List α) (g : β → Html)
    (l : List β) (hg : ∀ b, Html.collect f (g b) = []) :
    Html.collectList f (l.map g) = [] := by
  induction l with
  | nil => rfl
  | cons b t ih => simp [List.map, Html.collectList, hg, ih]

/-- Collection over a mapped sibling list each of whose images contributes
a single element. -/
theorem collectList_map_singleton {α β : Type} (f : Html → List α)
    (g : β → Html) (k : β → α) (l : List β)
    (hg : ∀ b, Html.collect f (g b) = [k b]) :
    Html.collectList f (l.map g) = l.map k := by
  induction l with
  | nil => rfl
  | cons b t ih => simp [List.map, Html.collectList, hg, ih]

/-- Any collection vanishes on the aggregation side bar provided the
collector ignores generic containers and `Aggregator` widgets; this lets
claims about other props step over `renderAggregations`, whose child lists
arise from mapping over the abstract configuration. -/
theorem collect_renderAggregations {α : Type} (f : Html → List α)
    (hElem : ∀ t cs, f (.elem t cs) = [])
    (hAgg : ∀ a b c d, f (.aggregatorC a b c d) = [])
    (cfg : SearchConfig) (s : DocumentsSearchState) :
    Html.collect f (DocumentsSearch.renderAggregations cfg s) = [] := by
  unfold DocumentsSearch.renderAggregations
  simp only [Html.collect_elem, Html.collectList_nil, Html.collectList_cons,
    hElem, List.nil_append, List.append_nil]
  rw [collectList_map_nil, collectList_map_nil]
  · simp
  · intro b
    simp [hElem, hAgg]
  · intro b
    simp [hElem, hAgg]

/-- Mapping the second projection through an enumeration recovers a plain
map over the underlying list. -/
theorem enumFrom_map_snd_comp {α β : Type} (f : α → β) (n : Nat)
    (l : List α) :
    (List.enumFrom n l).map (fun p => f p.2) = l.map f := by
  induction l generalizing n with
  | nil => rfl
  | cons a t ih => simp [List.enumFrom, List.map, ih]

/-- The aggregation side bar emits one `Aggregator` per configured
aggregation, twice (accordion panels for mobile, card panels for
computer), in configuration order. -/
theorem aggregatorFields_renderAggregations (cfg : SearchConfig)
    (s : DocumentsSearchState) :
    Html.collect
      (fun x => match x with | .aggregatorC _ f _ _ => [f] | _ => [])
      (DocumentsSearch.renderAggregations cfg s)
      = cfg.AGGREGATIONS.map (fun g => g.field)
        ++ cfg.AGGREGATIONS.map (fun g => g.field) := by
  unfold DocumentsSearch.renderAggregations
  simp only [Html.collect_elem, Html.collectList_cons, Html.collectList_nil,
    List.nil_append, List.append_nil]
  have h1 : ∀ b : Nat × AggregationConfig,
      Html.collect
        (fun x => match x with | .aggregatorC _ f _ _ => [f] | _ => [])
        (Html.elem "div" [.aggregatorC b.2.title b.2.field
          (some (Int.ofNat b.1))
          (some (DocumentsSearch.renderAccordionAggregations s))])
        = [b.2.field] := by
    intro b
    simp only [Html.collect_elem, Html.collectList_cons,
      Html.collectList_nil, Html.collect_aggregatorC, List.nil_append,
      List.append_nil]
  have h2 : ∀ b : AggregationConfig,
      Html.collect
        (fun x => match x with | .aggregatorC _ f _ _ => [f] | _ => [])
        (Html.elem "div" [.aggregatorC b.title b.field none none])
        = [b.field] := by
    intro b
    simp only [Html.collect_elem, Html.collectList_cons,
      Html.collectList_nil, Html.collect_aggregatorC, List.nil_append,
      List.append_nil]
  rw [collectList_map_singleton _ _ _ _ h1,
    collectList_map_singleton _ _ _ _ h2]
  rw [show cfg.AGGREGATIONS.enum = List.enumFrom 0 cfg.AGGREGATIONS from rfl,
    enumFrom_map_snd_comp (fun g : AggregationConfig => g.field) 0
      cfg.AGGREGATIONS]

/-- Claim C1: in `DocumentsSearch`, when `isLayoutGrid` is true the results
area renders through `ResultsGrid` with `renderResultsGrid`; when it is
false, through `ResultsList` with `renderResultsList`; and both layout
buttons click to `toggleLayout`, which flips `isLayoutGrid` to the other
value. -/
theorem C1_layout_toggle_switches_rendering (d : ApiDescriptor)
    (cfg : SearchConfig) (s : DocumentsSearchState) (loc : String) :
    gridRenderers (DocumentsSearch.render d cfg s loc)
      = (if s.isLayoutGrid then [DocumentsSearch.renderResultsGrid] else [])
    ∧ listRenderers (DocumentsSearch.render d cfg s loc)
      = (if s.isLayoutGrid then [] else [DocumentsSearch.renderResultsList])
    ∧ buttonEffects (DocumentsSearch.renderResultsLayoutOptions s)
      = [Effect.setDocumentsState (DocumentsSearch.toggleLayout s),
         Effect.setDocumentsState (DocumentsSearch.toggleLayout s)]
    ∧ (DocumentsSearch.toggleLayout s).isLayoutGrid = !s.isLayoutGrid := by
  have hAggG := collect_renderAggregations
    (fun x => match x with | .resultsGridC r => [r] | _ => [])
    (fun _ _ => rfl) (fun _ _ _ _ => rfl) cfg s
  have hAggL := collect_renderAggregations
    (fun x => match x with | .resultsListC r => [r] | _ => [])
    (fun _ _ => rfl) (fun _ _ _ _ => rfl) cfg s
  refine ⟨?_, ?_, ?_, ?_⟩
  · cases hg : s.isLayoutGrid <;>
      simp [gridRenderers, DocumentsSearch.render,
        DocumentsSearch.renderHeader,
        DocumentsSearch.renderResultsLayoutOptions,
        DocumentsSearch.renderFooter, hg, hAggG]
  · cases hg : s.isLayoutGrid <;>
      simp [listRenderers, DocumentsSearch.render,
        DocumentsSearch.renderHeader,
        DocumentsSearch.renderResultsLayoutOptions,
        DocumentsSearch.renderFooter, hg, hAggL]
  · simp [buttonEffects, DocumentsSearch.renderResultsLayoutOptions]
  · simp [DocumentsSearch.toggleLayout]

/-- Claim C2 counterexample: `DocumentsSearch.renderEmptyResults` wires no
control to the `resetQuery` callback it receives — the claim that both
pages wire a reset action fails on DocumentsSearch at query `"q"`. -/
theorem C2_counterexample :
    wiresEffect
      (DocumentsSearch.renderEmptyResults "q" Effect.resetQuery)
      Effect.resetQuery = false := by
  simp [wiresEffect, clickEffects, DocumentsSearch.renderEmptyResults]

/-- Claim C2 amended: the empty-results rendering of both pages shows the
current query string verbatim; EItemsSearch additionally wires the
`resetQuery` callback to its `ClearButton`, while DocumentsSearch renders
no clickable control at all in its empty state (its `resetQuery` argument
is ignored). -/
theorem C2_empty_results_query_and_reset (api : ApiDescriptor)
    (qs : String) (r r' : Effect) :
    textNodes (DocumentsSearch.renderEmptyResults qs r)
      = ["No records found!", "Current search \"", qs, "\""]
    ∧ clickEffects (DocumentsSearch.renderEmptyResults qs r) = []
    ∧ DocumentsSearch.renderEmptyResults qs r
      = DocumentsSearch.renderEmptyResults qs r'
    ∧ textNodes (EItemsSearch.renderEmptyResults api qs r)
      = ["No eitems found!", "Current search \"", qs, "\""]
    ∧ clickEffects (EItemsSearch.renderEmptyResults api qs r)
      = [r, Effect.openRecordEditor api.url] := by
  refine ⟨?_, ?_, rfl, ?_, ?_⟩ <;>
    simp [textNodes, clickEffects, DocumentsSearch.renderEmptyResults,
      EItemsSearch.renderEmptyResults, openRecordEditor]

/-- Claim C3 counterexample: with a non-empty aggregation configuration,
the EItemsSearch page renders neither a `ResultsGrid` component nor any
`Aggregator` widget, so the two pages are not structurally identical in
the claimed sense. -/
theorem C3_counterexample :
    hasGridC (EItemsSearch.render { withCredentials := true }
        { searchBaseURL := "/api/eitems/", url := "/api/eitems/" }
        { AGGREGATIONS := [{ title := "Tags", field := "tag" }] }) = false
    ∧ hasAggregator (EItemsSearch.render { withCredentials := true }
        { searchBaseURL := "/api/eitems/", url := "/api/eitems/" }
        { AGGREGATIONS := [{ title := "Tags", field := "tag" }] })
        = false := ⟨rfl, rfl⟩

/-- Claim C3 amended: both pages configure a search-context provider with
an endpoint and supply render props for search bar, results list, count,
pagination, sort, empty state and error state; but only DocumentsSearch
renders a grid/list pair and aggregation-facet widgets — EItemsSearch has
neither. -/
theorem C3_structural_comparison (a : ApiConfig) (d e : ApiDescriptor)
    (cfgD cfgE : SearchConfig) (s : DocumentsSearchState) (loc : String) :
    searchBarRenderers (DocumentsSearch.render d cfgD s loc)
      = [DocumentsSearch.renderSearchBar]
    ∧ searchBarRenderers (EItemsSearch.render a e cfgE)
      = [EItemsSearch.renderSearchBar]
    ∧ emptyRenderers (DocumentsSearch.render d cfgD s loc)
      = [DocumentsSearch.renderEmptyResults]
    ∧ emptyRenderers (EItemsSearch.render a e cfgE)
      = [EItemsSearch.renderEmptyResults e]
    ∧ errorRenderers (DocumentsSearch.render d cfgD s loc)
      = [DocumentsSearch.renderError]
    ∧ errorRenderers (EItemsSearch.render a e cfgE)
      = [EItemsSearch.renderError]
    ∧ countRenderers (DocumentsSearch.render d cfgD s loc)
      = [DocumentsSearch.renderCount]
    ∧ countRenderers (EItemsSearch.render a e cfgE)
      = [EItemsSearch.renderCount]
    ∧ sortConfigs (DocumentsSearch.render d cfgD s loc) = [cfgD]
    ∧ sortConfigs (EItemsSearch.render a e cfgE) = [cfgE]
    ∧ hasPagination (DocumentsSearch.render d cfgD s loc) = true
    ∧ hasPagination (EItemsSearch.render a e cfgE) = true
    ∧ listRenderers (EItemsSearch.render a e cfgE)
      = [EItemsSearch.renderResultsList]
    ∧ (hasGridC (DocumentsSearch.render d cfgD s loc)
        || hasListC (DocumentsSearch.render d cfgD s loc)) = true
    ∧ aggregatorFields (DocumentsSearch.render d cfgD s loc)
      = cfgD.AGGREGATIONS.map (fun g => g.field)
        ++ cfgD.AGGREGATIONS.map (fun g => g.field)
    ∧ hasGridC (EItemsSearch.render a e cfgE) = false
    ∧ hasAggregator (EItemsSearch.render a e cfgE) = false := by
  have hSB := collect_renderAggregations
    (fun x => match x with | .searchBarC r => [r] | _ => [])
    (fun _ _ => rfl) (fun _ _ _ _ => rfl) cfgD s
  have hER := collect_renderAggregations
    (fun x => match x with | .emptyResultsC r => [r] | _ => [])
    (fun _ _ => rfl) (fun _ _ _ _ => rfl) cfgD s
  have hEC := collect_renderAggregations
    (fun x => match x with | .errorC r => [r] | _ => [])
    (fun _ _ => rfl) (fun _ _ _ _ => rfl) cfgD s
  have hCC := collect_renderAggregations
    (fun x => match x with | .countC r => [r] | _ => [])
    (fun _ _ => rfl) (fun _ _ _ _ => rfl) cfgD s
  have hSC := collect_renderAggregations
    (fun x => match x with | .resultsSortC c => [c] | _ => [])
    (fun _ _ => rfl) (fun _ _ _ _ => rfl) cfgD s
  have hPN := collect_renderAggregations
    (fun x => match x with | .paginationC => [()] | _ => [])
    (fun _ _ => rfl) (fun _ _ _ _ => rfl) cfgD s
  have hG := collect_renderAggregations
    (fun x => match x with | .resultsGridC r => [r] | _ => [])
    (fun _ _ => rfl) (fun _ _ _ _ => rfl) cfgD s
  have hL := collect_renderAggregations
    (fun x => match x with | .resultsListC r => [r] | _ => [])
    (fun _ _ => rfl) (fun _ _ _ _ => rfl) cfgD s
  have hAF := aggregatorFields_renderAggregations cfgD s
  refine ⟨?_, rfl, ?_, rfl, ?_, rfl, ?_, rfl, ?_, rfl, ?_, rfl, rfl, ?_,
    ?_, rfl, rfl⟩
  · cases hg : s.isLayoutGrid <;>
      simp [searchBarRenderers, DocumentsSearch.render,
        DocumentsSearch.renderHeader,
        DocumentsSearch.renderResultsLayoutOptions,
        DocumentsSearch.renderFooter, hg, hSB]
  · cases hg : s.isLayoutGrid <;>
      simp [emptyRenderers, DocumentsSearch.render,
        DocumentsSearch.renderHeader,
        DocumentsSearch.renderResultsLayoutOptions,
        DocumentsSearch.renderFooter, hg, hER]
  · cases hg : s.isLayoutGrid <;>
      simp [errorRenderers, DocumentsSearch.render,
        DocumentsSearch.renderHeader,
        DocumentsSearch.renderResultsLayoutOptions,
        DocumentsSearch.renderFooter, hg, hEC]
  · cases hg : s.isLayoutGrid <;>
      simp [countRenderers, DocumentsSearch.render,
        DocumentsSearch.renderHeader,
        DocumentsSearch.renderResultsLayoutOptions,
        DocumentsSearch.renderFooter, hg, hCC]
  · cases hg : s.isLayoutGrid <;>
      simp [sortConfigs, DocumentsSearch.render,
        DocumentsSearch.renderHeader,
        DocumentsSearch.renderResultsLayoutOptions,
        DocumentsSearch.renderFooter, hg, hSC]
  · cases hg : s.isLayoutGrid <;>
      simp [hasPagination, paginationNodes, DocumentsSearch.render,
        DocumentsSearch.renderHeader,
        DocumentsSearch.renderResultsLayoutOptions,
        DocumentsSearch.renderFooter, hg, hPN]
  · cases hg : s.isLayoutGrid <;>
      simp [hasGridC, hasListC, gridRenderers, listRenderers,
        DocumentsSearch.render, DocumentsSearch.renderHeader,
        DocumentsSearch.renderResultsLayoutOptions,
        DocumentsSearch.renderFooter, hg, hG, hL]
  · cases hg : s.isLayoutGrid <;>
      · simp only [aggregatorFields, DocumentsSearch.render,
          DocumentsSearch.renderHeader,
          DocumentsSearch.renderResultsLayoutOptions,
          DocumentsSearch.renderFooter, hg, Bool.false_eq_true, if_false,
          if_true, Html.collect_reactSearchKit, Html.collect_elem,
          Html.collect_resultsLoader, Html.collect_link,
          Html.collect_button, Html.collectList_cons, Html.collectList_nil,
          Html.collect_searchBarC, Html.collect_emptyResultsC,
          Html.collect_errorC, Html.collect_countC, Html.collect_paginationC,
          Html.collect_resultsSortC, Html.collect_resultsGridC,
          Html.collect_resultsListC, Html.collect_icon, Html.collect_text,
          List.nil_append, List.append_nil]
        rw [hAF]

/-- Claim C4: error handling is display-only — `renderError` of both pages
forwards the error object unchanged to the `IlsError` component, for every
error object, and each page's `Error` component is wired to exactly that
render prop. -/
theorem C4_error_display_only (err : SearchError) (a : ApiConfig)
    (d e : ApiDescriptor) (cfgD cfgE : SearchConfig)
    (s : DocumentsSearchState) (loc : String) :
    DocumentsSearch.renderError err = Html.ilsError err
    ∧ EItemsSearch.renderError err = Html.ilsError err
    ∧ errorRenderers (DocumentsSearch.render d cfgD s loc)
      = [DocumentsSearch.renderError]
    ∧ errorRenderers (EItemsSearch.render a e cfgE)
      = [EItemsSearch.renderError] := by
  have hEC := collect_renderAggregations
    (fun x => match x with | .errorC r => [r] | _ => [])
    (fun _ _ => rfl) (fun _ _ _ _ => rfl) cfgD s
  refine ⟨rfl, rfl, ?_, ?_⟩
  · cases hg : s.isLayoutGrid <;>
      simp [errorRenderers, DocumentsSearch.render,
        DocumentsSearch.renderHeader,
        DocumentsSearch.renderResultsLayoutOptions,
        DocumentsSearch.renderFooter, hg, hEC]
  · simp [errorRenderers, EItemsSearch.render, EItemsSearch.renderHeader,
      EItemsSearch.renderFooter]

/-- Claim C5: every result-row navigation goes through `goTo` applied to a
details route built from the record's identifier — each `DocumentItem` row
action navigates to the document-details route of the clicked pid, and the
EItems view-details action navigates to the eitem-details route of the
row's `ID`. -/
theorem C5_row_navigation (results : List Hit) :
    docRowHandlers (DocumentsSearch.renderResultsList results)
      = results.map
          (fun _ => fun pid => goTo (FrontSiteRoutes.documentDetailsFor pid))
    ∧ eitemHandlers (EItemsSearch.renderResultsList results)
      = [fun row => goTo (BackOfficeRoutes.eitemDetailsFor row.ID)]
    ∧ eitemResultsProps (EItemsSearch.renderResultsList results)
      = [results] := by
  refine ⟨?_, ?_, ?_⟩
  · cases results with
    | nil => simp [docRowHandlers, DocumentsSearch.renderResultsList]
    | cons hd tl =>
        have hsing : ∀ b : Hit,
            Html.collect
              (fun x =>
                match x with | .documentItem _ _ f => [f] | _ => [])
              (Html.documentItem b.metadata.pid b.metadata
                (fun pid => goTo (FrontSiteRoutes.documentDetailsFor pid)))
              = [fun pid => goTo (FrontSiteRoutes.documentDetailsFor pid)]
          := by
          intro b
          simp only [Html.collect_documentItem]
        simp only [docRowHandlers, DocumentsSearch.renderResultsList,
          List.length_cons]
        rw [if_pos (by simp)]
        simp only [List.map_cons, Html.collect_elem, Html.collectList_cons,
          Html.collect_documentItem, List.nil_append]
        rw [collectList_map_singleton _ _ _ _ hsing]
        rfl
  · simp [eitemHandlers, EItemsSearch.renderResultsList]
  · simp [eitemResultsProps, EItemsSearch.renderResultsList]

/-- Claim C6: each page hands its provider the search endpoint of its
domain API descriptor — DocumentsSearch builds its search API from
`documentApi.searchBaseURL` with credentials on, and EItemsSearch's search
configuration spreads the base config and sets `url` to `eitemApi.url`. -/
theorem C6_provider_endpoints (a : ApiConfig) (d e : ApiDescriptor)
    (cfgD cfgE : SearchConfig) (s : DocumentsSearchState) (loc : String) :
    (DocumentsSearch.searchApi d).url = d.searchBaseURL
    ∧ (DocumentsSearch.searchApi d).withCredentials = true
    ∧ providerOf (DocumentsSearch.render d cfgD s loc)
      = some (SearchProvider.api (DocumentsSearch.searchApi d))
    ∧ providerOf (EItemsSearch.render a e cfgE)
      = some (SearchProvider.config a e.url) := by
  refine ⟨rfl, rfl, ?_, ?_⟩
  · simp [providerOf, DocumentsSearch.render]
  · simp [providerOf, EItemsSearch.render]

/-- Claim C7: the fragment's only component state is DocumentsSearch's two
UI toggles — the state record is exactly `{activeIndex, isLayoutGrid}`,
`toggleAccordion` writes only `activeIndex`, `toggleLayout` writes only
`isLayoutGrid`, and the EItemsSearch page wires no state-writing handler
anywhere in its rendered tree. -/
theorem C7_state_is_two_toggles (s : DocumentsSearchState) (i : Int)
    (a : ApiConfig) (e : ApiDescriptor) (cfgE : SearchConfig) :
    s = { activeIndex := s.activeIndex, isLayoutGrid := s.isLayoutGrid }
    ∧ (DocumentsSearch.toggleAccordion i s).isLayoutGrid = s.isLayoutGrid
    ∧ (DocumentsSearch.toggleLayout s).activeIndex = s.activeIndex
    ∧ DocumentsSearch.initialState
      = { activeIndex := 0, isLayoutGrid := true }
    ∧ setStateWrites (EItemsSearch.render a e cfgE) = [] := by
  refine ⟨rfl, rfl, rfl, rfl, ?_⟩
  simp [setStateWrites, clickEffects, EItemsSearch.render,
    EItemsSearch.renderHeader, EItemsSearch.renderFooter]

/-- Claim C8: at most one accordion panel is open at a time — a rendered
panel is active exactly when `activeIndex` equals its index (so two
distinct indices are never both active), and `toggleAccordion` sets
`activeIndex` to `-1` when the clicked index is already active and to the
clicked index otherwise. -/
theorem C8_single_open_accordion (s : DocumentsSearchState) (i j : Int)
    (title : String) (buckets : ResultsAggregations)
    (v : AggregationsView) :
    (DocumentsSearch.toggleAccordion i s).activeIndex
      = (if s.activeIndex = i then -1 else i)
    ∧ accordionActiveFlags
        (DocumentsSearch.renderAccordionAggregations s title (some buckets)
          v i)
      = [s.activeIndex == i, s.activeIndex == i]
    ∧ DocumentsSearch.renderAccordionAggregations s title none v i
      = Html.null
    ∧ ((i != j) && (s.activeIndex == i) && (s.activeIndex == j))
      = false := by
  refine ⟨rfl, ?_, rfl, ?_⟩
  · simp [accordionActiveFlags,
      DocumentsSearch.renderAccordionAggregations]
  · rcases eq_or_ne s.activeIndex i with h | h
    · rcases eq_or_ne s.activeIndex j with h2 | h2
      · have hij : i = j := h ▸ h2
        simp [hij]
      · simp [h2]
    · simp [h]

/-- Claim C9: the layout toggle is an involution — `toggleLayout` negates
`isLayoutGrid`, so applying it twice restores the state; the initial
layout is grid; and of the two layout buttons exactly one is disabled, the
one matching the current layout. -/
theorem C9_layout_involution (s : DocumentsSearchState) :
    DocumentsSearch.toggleLayout (DocumentsSearch.toggleLayout s) = s
    ∧ DocumentsSearch.initialState.isLayoutGrid = true
    ∧ buttonDisabledFlags (DocumentsSearch.renderResultsLayoutOptions s)
      = [s.isLayoutGrid, !s.isLayoutGrid]
    ∧ (buttonDisabledFlags
        (DocumentsSearch.renderResultsLayoutOptions s)).count true
      = 1 := by
  refine ⟨?_, rfl, ?_, ?_⟩
  · simp [DocumentsSearch.toggleLayout]
  · simp [buttonDisabledFlags, DocumentsSearch.renderResultsLayoutOptions]
  · cases hg : s.isLayoutGrid <;>
      simp [buttonDisabledFlags,
        DocumentsSearch.renderResultsLayoutOptions, hg]

/-- Claim C10: on the empty results array `renderResultsList` renders
nothing (`null`) while `renderResultsGrid` renders an empty card group;
and on every results array both render one item per result keyed by the
result's `metadata.pid`. -/
theorem C10_empty_vs_grid_rendering (results : List Hit) :
    DocumentsSearch.renderResultsList [] = Html.null
    ∧ DocumentsSearch.renderResultsGrid [] = Html.cardGroup 4 []
    ∧ docItemKeys (DocumentsSearch.renderResultsList results)
      = results.map (fun b => b.metadata.pid)
    ∧ bookCardKeys (DocumentsSearch.renderResultsGrid results)
      = results.map (fun b => b.metadata.pid) := by
  refine ⟨rfl, rfl, ?_, ?_⟩
  · cases results with
    | nil => simp [docItemKeys, DocumentsSearch.renderResultsList]
    | cons hd tl =>
        simp only [docItemKeys, DocumentsSearch.renderResultsList,
          List.length_cons]
        rw [if_pos (by simp)]
        simp only [Html.collect_elem, List.nil_append, List.map_cons,
          Html.collectList_cons, Html.collect_documentItem]
        rw [collectList_map_singleton _ _ (fun b => b.metadata.pid)]
        · simp
        · intro b
          simp
  · simp only [bookCardKeys, DocumentsSearch.renderResultsGrid,
      Html.collect_cardGroup, List.nil_append]
    rw [collectList_map_singleton _ _ (fun b => b.metadata.pid)]
    · intro b
      simp

end Ils
